import Mathlib

/-!
Verification of the `slog` leveled-logging package.

The embedding translates the Go sources:
* `LogLevel` (an `int` in Go) becomes `Int`, with the five constants
  `ERROR = 0`, `WARN = 1`, `INFO = 2`, `DEBUG = 3`, `FINE = 4` declared by
  `iota` in the source.
* The process-wide mutable variable `globalLogLevel` (guarded by
  `globalLogLevelMutex`) and the bytes accumulated in the sinks become an
  explicit state record `LogState`; every stateful operation takes and
  returns a `LogState`.
* A `Logger` stores its component label, its sink, and the flag word it
  passes to `log.New` (`log.LstdFlags` in `NewLogger`, `0` in the test
  helper `newTestLogger`).
* `logf` follows `Logger.go` lines 58-72: gate on the global level, build
  the `[LEVEL][component]` prefix, and hand `prefix ++ " " ++ interpolated`
  to the wrapped `log.Logger`.  The Go standard-library writer appends a
  newline only when the formatted string does not already end in one
  (`log.Output`); `sinkWrite` models exactly that rule.
* printf interpolation (`fmt.Sprintf(msg, params...)`) is delegated to the
  Go standard library by the source, so the model takes the already
  interpolated message string as the argument of each logging call;
  `fmt.Sprintf` is total, returning inline error markers on placeholder
  mismatch rather than failing.
-/

namespace Slog

/-- Go: `type LogLevel int`. -/
abbrev LogLevel := Int

/-- Go: `ERROR LogLevel = iota // 0`. -/
def ERROR : LogLevel := 0

/-- Go: `WARN // 1`. -/
def WARN : LogLevel := 1

/-- Go: `INFO // 2`. -/
def INFO : LogLevel := 2

/-- Go: `DEBUG // 3`. -/
def DEBUG : LogLevel := 3

/-- Go: `FINE // 4`. -/
def FINE : LogLevel := 4

/-- Go: `func (l LogLevel) String() string` — a switch over the five known
constants with a `fmt.Sprintf("UNKNOWN_LOG_LEVEL(%d)", l)` default. -/
def LogLevel.String (l : LogLevel) : String :=
  if l = ERROR then "ERROR"
  else if l = WARN then "WARN"
  else if l = INFO then "INFO"
  else if l = DEBUG then "DEBUG"
  else if l = FINE then "FINE"
  else "UNKNOWN_LOG_LEVEL(" ++ toString l ++ ")"

/-- A writable destination (`*os.File` in Go): the process standard output
stream, or some other file handle. -/
inductive Sink where
  | stdout : Sink
  | file : Nat → Sink
deriving DecidableEq

/-- The process-wide mutable state of the package together with the bytes
written to the sinks.  `globalLogLevel` is the Go variable of the same name
(guarded by `globalLogLevelMutex`); `output` records, in order, each write
a `log.Logger` performed, tagged with the sink it went to. -/
structure LogState where
  globalLogLevel : LogLevel
  output : List (Sink × String)
deriving DecidableEq

/-- Go: `var globalLogLevel LogLevel = INFO` — the state at process start,
before any write has happened. -/
def initialLogState : LogState :=
  { globalLogLevel := INFO, output := [] }

/-- Go: `func SetGlobalMinLevel(level LogLevel)` — takes the write lock and
stores `level` into `globalLogLevel`. -/
def SetGlobalMinLevel (s : LogState) (level : LogLevel) : LogState :=
  { s with globalLogLevel := level }

/-- Go: `func GetGlobalMinLevel() LogLevel` — takes the read lock and
returns `globalLogLevel`. -/
def GetGlobalMinLevel (s : LogState) : LogLevel :=
  s.globalLogLevel

/-- Go: `log.LstdFlags = Ldate | Ltime = 3`, the flag word `NewLogger`
passes to `log.New`. -/
def LstdFlags : Nat := 3

/-- Go: `type Logger struct` with fields `internalLogger *log.Logger` and
`component string`.  The wrapped `log.Logger` is represented by its sink
and its flag word. -/
structure Logger where
  component : String
  sink : Sink
  flags : Nat
deriving DecidableEq

/-- Go: `func NewLogger(component string, output *os.File) *Logger` — a nil
sink defaults to `os.Stdout`, and the wrapped writer is
`log.New(output, "", log.LstdFlags)`. -/
def NewLogger (component : String) (output : Option Sink) : Logger :=
  { component := component
    sink := output.getD Sink.stdout
    flags := LstdFlags }

/-- The test helper `newTestLogger` from `Logger_test.go`, writing to the
standard-output sink of the model: `log.New(output, "", 0)` with an
arbitrary component. -/
def newTestLogger (output : Sink) (component : String) : Logger :=
  { component := component, sink := output, flags := 0 }

/-- Whether a string ends in the newline character — the Go standard
library check `len(s) == 0 || s[len(s)-1] != '\n'` in `log.Output`,
phrased positively. -/
def endsWithNewline (s : String) : Bool :=
  s.data.getLast? = some (Char.ofNat 10)

/-- The write performed by the wrapped `log.Logger` (Go `log.Output`):
the formatted string is written as-is, with a newline appended only when
it does not already end in one.  (With nonzero flags the standard library
also prepends a date/time stamp; the stamp is not modelled — claims about
exact bytes are stated modulo it, matching the zero-flag test loggers.) -/
def sinkWrite (s : String) : String :=
  if endsWithNewline s then s else s ++ "\x0a"

/-- The prefix built by `logf` lines 64-68:
`[LEVEL]` followed by `[component]` only when the component is non-empty. -/
def tagString (l : Logger) (level : LogLevel) : String :=
  let p := "[" ++ LogLevel.String level ++ "]"
  if l.component ≠ "" then p ++ "[" ++ l.component ++ "]" else p

/-- Go: `func (l *Logger) logf(level LogLevel, msg string, params ...)` —
return unchanged (no write) when `level > GetGlobalMinLevel()`, otherwise
write `prefix ++ " " ++ interpolated` through the wrapped `log.Logger`.
`interpolated` stands for `fmt.Sprintf(msg, params...)`. -/
def logf (l : Logger) (s : LogState) (level : LogLevel) (interpolated : String) :
    LogState :=
  if level > GetGlobalMinLevel s then
    s
  else
    { s with
      output := s.output ++ [(l.sink, sinkWrite (tagString l level ++ " " ++ interpolated))] }

/-- Go: `func (l *Logger) Error(msg string, params ...)`. -/
def Logger.Error (l : Logger) (s : LogState) (interpolated : String) : LogState :=
  logf l s ERROR interpolated

/-- Go: `func (l *Logger) Warn(msg string, params ...)`. -/
def Logger.Warn (l : Logger) (s : LogState) (interpolated : String) : LogState :=
  logf l s WARN interpolated

/-- Go: `func (l *Logger) Info(msg string, params ...)`. -/
def Logger.Info (l : Logger) (s : LogState) (interpolated : String) : LogState :=
  logf l s INFO interpolated

/-- Go: `func (l *Logger) Debug(msg string, params ...)`. -/
def Logger.Debug (l : Logger) (s : LogState) (interpolated : String) : LogState :=
  logf l s DEBUG interpolated

/-- Go: `func (l *Logger) Fine(msg string, params ...)`. -/
def Logger.Fine (l : Logger) (s : LogState) (interpolated : String) : LogState :=
  logf l s FINE interpolated

/-! ### Helper lemmas -/

theorem logf_of_gt {l : Logger} {s : LogState} {level : LogLevel} {msg : String}
    (h : GetGlobalMinLevel s < level) : logf l s level msg = s := by
  unfold logf
  rw [if_pos h]

theorem logf_of_le {l : Logger} {s : LogState} {level : LogLevel} {msg : String}
    (h : level ≤ GetGlobalMinLevel s) :
    logf l s level msg =
      { s with
        output := s.output ++ [(l.sink, sinkWrite (tagString l level ++ " " ++ msg))] } := by
  unfold logf
  rw [if_neg (not_lt.mpr h)]

theorem logf_emits_iff (l : Logger) (s : LogState) (level : LogLevel) (msg : String) :
    (logf l s level msg).output ≠ s.output ↔ level ≤ GetGlobalMinLevel s := by
  by_cases h : level ≤ GetGlobalMinLevel s
  · rw [logf_of_le h]
    simp [h]
  · rw [logf_of_gt (not_le.mp h)]
    simp [h]

theorem endsWithNewline_space_append (a msg : String) :
    endsWithNewline (a ++ " " ++ msg) = endsWithNewline msg := by
  unfold endsWithNewline
  obtain ⟨d⟩ := msg
  cases d with
  | nil =>
    simp [String.data_append, List.getLast?_concat]
  | cons c cs =>
    rw [String.data_append]
    rw [List.getLast?_append_of_ne_nil _ (by simp)]

theorem sinkWrite_space_append (p msg : String) :
    sinkWrite (p ++ " " ++ msg) =
      p ++ " " ++ msg ++ (if endsWithNewline msg then "" else "\n") := by
  unfold sinkWrite
  rw [endsWithNewline_space_append]
  by_cases hn : endsWithNewline msg
  · simp [hn]
  · simp [hn]

/-! ### Claim theorems -/

/-- C1: for every threshold held by the global state and every logging call
at one of the five levels (ranks Error=0, Warn=1, Info=2, Debug=3, Fine=4),
a message is written to the sink if and only if the call's rank is ≤ the
threshold's rank as read at the time of the call; when the rank is greater
nothing is written. -/
theorem c1_emitted_iff_rank_le (s : LogState) (l : Logger) (msg : String) :
    ((Logger.Error l s msg).output ≠ s.output ↔ ERROR ≤ GetGlobalMinLevel s) ∧
    ((Logger.Warn l s msg).output ≠ s.output ↔ WARN ≤ GetGlobalMinLevel s) ∧
    ((Logger.Info l s msg).output ≠ s.output ↔ INFO ≤ GetGlobalMinLevel s) ∧
    ((Logger.Debug l s msg).output ≠ s.output ↔ DEBUG ≤ GetGlobalMinLevel s) ∧
    ((Logger.Fine l s msg).output ≠ s.output ↔ FINE ≤ GetGlobalMinLevel s) :=
  ⟨logf_emits_iff l s ERROR msg, logf_emits_iff l s WARN msg, logf_emits_iff l s INFO msg,
   logf_emits_iff l s DEBUG msg, logf_emits_iff l s FINE msg⟩

/-- C2 counterexample: the claim predicts that an emitted message is always
followed by an extra trailing newline, i.e. that logging `"x\n"` at level
DEBUG with an empty component writes `"[DEBUG] x\n\n"`.  The wrapped Go
`log` writer appends a newline only when the formatted string does not
already end in one, so the bytes actually written are `"[DEBUG] x\n"`. -/
theorem c2_exact_bytes_counterexample :
    (logf (newTestLogger Sink.stdout "") { globalLogLevel := FINE, output := [] } DEBUG
        "x\n").output ≠ [(Sink.stdout, "[DEBUG]" ++ " " ++ "x\n" ++ "\n")] ∧
    (logf (newTestLogger Sink.stdout "") { globalLogLevel := FINE, output := [] } DEBUG
        "x\n").output = [(Sink.stdout, "[DEBUG] x\n")] := by
  constructor
  · decide
  · decide

/-- C2 (amended): for every emitted message the bytes written to the sink
are exactly the prefix `[LEVEL][component]` when the component is
non-empty, or exactly `[LEVEL]` with no empty bracket pair when the
component is empty, followed by one space, the interpolated message, and a
single trailing newline appended only when the interpolated message does
not already end in a newline (modulo the optional leading timestamp
supplied by the sink wrapper under the default constructor, which is not
modelled). -/
theorem c2_emitted_bytes (s : LogState) (l : Logger) (level : LogLevel)
    (msg : String) (h : level ≤ GetGlobalMinLevel s) :
    (logf l s level msg).output = s.output ++
      [(l.sink,
        (if l.component ≠ "" then
          "[" ++ LogLevel.String level ++ "]" ++ "[" ++ l.component ++ "]"
         else "[" ++ LogLevel.String level ++ "]") ++ " " ++ msg ++
          (if endsWithNewline msg then "" else "\n"))] := by
  rw [logf_of_le h]
  rw [show sinkWrite (tagString l level ++ " " ++ msg) =
        tagString l level ++ " " ++ msg ++ (if endsWithNewline msg then "" else "\n") from
      sinkWrite_space_append (tagString l level) msg]
  simp only [tagString]

/-- C2 witness: the spec's own scenario — threshold FINE, component
`Worker`, a WARN message — evaluated concretely. -/
theorem c2_emitted_bytes_witness :
    (logf (newTestLogger Sink.stdout "Worker") { globalLogLevel := FINE, output := [] } WARN
        "Job 123 failed for user Alice").output
      = [(Sink.stdout, "[WARN][Worker] Job 123 failed for user Alice\n")] :=
  (c2_emitted_bytes { globalLogLevel := FINE, output := [] }
      (newTestLogger Sink.stdout "Worker") WARN "Job 123 failed for user Alice"
      (by decide)).trans (by decide)

/-- C3: for every valid level X of the five, setting the global minimum
level to X and then reading it back (with no intervening set) returns
exactly X. -/
theorem c3_set_get_roundtrip (s : LogState) :
    GetGlobalMinLevel (SetGlobalMinLevel s ERROR) = ERROR ∧
    GetGlobalMinLevel (SetGlobalMinLevel s WARN) = WARN ∧
    GetGlobalMinLevel (SetGlobalMinLevel s INFO) = INFO ∧
    GetGlobalMinLevel (SetGlobalMinLevel s DEBUG) = DEBUG ∧
    GetGlobalMinLevel (SetGlobalMinLevel s FINE) = FINE :=
  ⟨rfl, rfl, rfl, rfl, rfl⟩

/-- C4: stringification is total and side-effect-free — the five known
variants render as their exact uppercase short names, and every other
integral value v renders as `UNKNOWN_LOG_LEVEL(v)` with the raw number
embedded. -/
theorem c4_string_total :
    LogLevel.String ERROR = "ERROR" ∧
    LogLevel.String WARN = "WARN" ∧
    LogLevel.String INFO = "INFO" ∧
    LogLevel.String DEBUG = "DEBUG" ∧
    LogLevel.String FINE = "FINE" ∧
    ∀ v : LogLevel, v ≠ ERROR → v ≠ WARN → v ≠ INFO → v ≠ DEBUG → v ≠ FINE →
      LogLevel.String v = "UNKNOWN_LOG_LEVEL(" ++ toString v ++ ")" := by
  refine ⟨by decide, by decide, by decide, by decide, by decide, ?_⟩
  intro v h0 h1 h2 h3 h4
  simp [LogLevel.String, h0, h1, h2, h3, h4]

/-- C4 witness: the out-of-range value 99 (the one exercised by the
repository's own test) stringifies to `UNKNOWN_LOG_LEVEL(99)`. -/
theorem c4_string_total_witness : LogLevel.String 99 = "UNKNOWN_LOG_LEVEL(99)" :=
  (c4_string_total.2.2.2.2.2 99 (by decide) (by decide) (by decide) (by decide)
    (by decide)).trans (by decide)

/-- C6: a logging call whose level rank is strictly greater than the
current global threshold rank is a pure no-op — the state (global
threshold and all sink output) is returned unchanged; the logger value
itself is immutable in the model. -/
theorem c6_suppressed_noop (s : LogState) (l : Logger) (msg : String) :
    (GetGlobalMinLevel s < ERROR → Logger.Error l s msg = s) ∧
    (GetGlobalMinLevel s < WARN → Logger.Warn l s msg = s) ∧
    (GetGlobalMinLevel s < INFO → Logger.Info l s msg = s) ∧
    (GetGlobalMinLevel s < DEBUG → Logger.Debug l s msg = s) ∧
    (GetGlobalMinLevel s < FINE → Logger.Fine l s msg = s) :=
  ⟨fun h => logf_of_gt h, fun h => logf_of_gt h, fun h => logf_of_gt h,
   fun h => logf_of_gt h, fun h => logf_of_gt h⟩

/-- C6 witness: at the default threshold (INFO) a Debug call returns the
state unchanged. -/
theorem c6_suppressed_noop_witness :
    Logger.Debug (newTestLogger Sink.stdout "TestComponent") initialLogState "Debug message"
      = initialLogState :=
  (c6_suppressed_noop initialLogState (newTestLogger Sink.stdout "TestComponent")
      "Debug message").2.2.2.1 (by decide)

/-- C7: for every component string (empty allowed) and every optional
sink, `NewLogger` is total, stores exactly the given component, passes
`log.LstdFlags` to the wrapped writer, substitutes standard output when
the sink is nil, and stores the given sink otherwise.  Construction
produces a plain value, so it has no other side effects and the instance
is immutable. -/
theorem c7_newLogger_fields (component : String) (output : Option Sink) :
    (NewLogger component output).component = component ∧
    (NewLogger component output).flags = LstdFlags ∧
    (output = none → (NewLogger component output).sink = Sink.stdout) ∧
    (∀ f : Sink, output = some f → (NewLogger component output).sink = f) := by
  refine ⟨rfl, rfl, ?_, ?_⟩
  · intro h
    subst h
    rfl
  · intro f h
    subst h
    rfl

/-- C7 witness: a nil sink defaults to standard output, and a concrete
file sink is stored as given. -/
theorem c7_newLogger_fields_witness :
    (NewLogger "DB" none).sink = Sink.stdout ∧
    (NewLogger "" (some (Sink.file 5))).sink = Sink.file 5 :=
  ⟨(c7_newLogger_fields "DB" none).2.2.1 rfl,
   (c7_newLogger_fields "" (some (Sink.file 5))).2.2.2 (Sink.file 5) rfl⟩

/-- C8: no logging call returns or raises an error — each of the five
per-level methods is exactly the shared gated write `logf` at its fixed
level, and `logf` always completes normally, returning either the
unchanged state or the state with exactly one formatted line appended
(the interpolated argument stands for the host formatting routine's
output, which is a plain string even on placeholder mismatch). -/
theorem c8_no_error_total (s : LogState) (l : Logger) (level : LogLevel) (msg : String) :
    (Logger.Error l s msg = logf l s ERROR msg ∧
     Logger.Warn l s msg = logf l s WARN msg ∧
     Logger.Info l s msg = logf l s INFO msg ∧
     Logger.Debug l s msg = logf l s DEBUG msg ∧
     Logger.Fine l s msg = logf l s FINE msg) ∧
    (logf l s level msg = s ∨
      logf l s level msg =
        { s with
          output := s.output ++ [(l.sink, sinkWrite (tagString l level ++ " " ++ msg))] }) := by
  refine ⟨⟨rfl, rfl, rfl, rfl, rfl⟩, ?_⟩
  by_cases h : level ≤ GetGlobalMinLevel s
  · exact Or.inr (logf_of_le h)
  · exact Or.inl (logf_of_gt (not_le.mp h))

/-- C9: at process start, before any `SetGlobalMinLevel`, the global
threshold holds INFO, so `GetGlobalMinLevel` returns INFO and exactly the
levels Error, Warn and Info are emitted by default while Debug and Fine
are no-ops. -/
theorem c9_default_info (l : Logger) (msg : String) :
    GetGlobalMinLevel initialLogState = INFO ∧
    (Logger.Error l initialLogState msg).output ≠ [] ∧
    (Logger.Warn l initialLogState msg).output ≠ [] ∧
    (Logger.Info l initialLogState msg).output ≠ [] ∧
    Logger.Debug l initialLogState msg = initialLogState ∧
    Logger.Fine l initialLogState msg = initialLogState := by
  refine ⟨rfl, ?_, ?_, ?_, logf_of_gt (by decide), logf_of_gt (by decide)⟩
  · show (logf l initialLogState ERROR msg).output ≠ []
    rw [logf_of_le (show ERROR ≤ GetGlobalMinLevel initialLogState by decide)]
    simp [initialLogState]
  · show (logf l initialLogState WARN msg).output ≠ []
    rw [logf_of_le (show WARN ≤ GetGlobalMinLevel initialLogState by decide)]
    simp [initialLogState]
  · show (logf l initialLogState INFO msg).output ≠ []
    rw [logf_of_le (show INFO ≤ GetGlobalMinLevel initialLogState by decide)]
    simp [initialLogState]

/-- C10: `SetGlobalMinLevel` stores any integral level without validation,
and the gate then compares raw integers: after setting a value below 0
every per-level call is suppressed (a no-op), and after setting a value of
4 or more every per-level call writes to the sink. -/
theorem c10_raw_integer_gate (v : LogLevel) (s : LogState) (l : Logger) (msg : String) :
    SetGlobalMinLevel s v = { s with globalLogLevel := v } ∧
    (v < 0 →
      Logger.Error l (SetGlobalMinLevel s v) msg = SetGlobalMinLevel s v ∧
      Logger.Warn l (SetGlobalMinLevel s v) msg = SetGlobalMinLevel s v ∧
      Logger.Info l (SetGlobalMinLevel s v) msg = SetGlobalMinLevel s v ∧
      Logger.Debug l (SetGlobalMinLevel s v) msg = SetGlobalMinLevel s v ∧
      Logger.Fine l (SetGlobalMinLevel s v) msg = SetGlobalMinLevel s v) ∧
    (4 ≤ v →
      (Logger.Error l (SetGlobalMinLevel s v) msg).output ≠ (SetGlobalMinLevel s v).output ∧
      (Logger.Warn l (SetGlobalMinLevel s v) msg).output ≠ (SetGlobalMinLevel s v).output ∧
      (Logger.Info l (SetGlobalMinLevel s v) msg).output ≠ (SetGlobalMinLevel s v).output ∧
      (Logger.Debug l (SetGlobalMinLevel s v) msg).output ≠ (SetGlobalMinLevel s v).output ∧
      (Logger.Fine l (SetGlobalMinLevel s v) msg).output ≠ (SetGlobalMinLevel s v).output) := by
  refine ⟨rfl, ?_, ?_⟩
  · intro hv
    exact ⟨logf_of_gt (lt_of_lt_of_le hv (by decide)),
           logf_of_gt (lt_of_lt_of_le hv (by decide)),
           logf_of_gt (lt_of_lt_of_le hv (by decide)),
           logf_of_gt (lt_of_lt_of_le hv (by decide)),
           logf_of_gt (lt_of_lt_of_le hv (by decide))⟩
  · intro hv
    exact ⟨(logf_emits_iff l (SetGlobalMinLevel s v) ERROR msg).mpr (le_trans (by decide) hv),
           (logf_emits_iff l (SetGlobalMinLevel s v) WARN msg).mpr (le_trans (by decide) hv),
           (logf_emits_iff l (SetGlobalMinLevel s v) INFO msg).mpr (le_trans (by decide) hv),
           (logf_emits_iff l (SetGlobalMinLevel s v) DEBUG msg).mpr (le_trans (by decide) hv),
           (logf_emits_iff l (SetGlobalMinLevel s v) FINE msg).mpr (le_trans (by decide) hv)⟩

/-- C10 witness: after setting the threshold to -1 an Error call is a
no-op, and after setting it to 7 even a Fine call writes a line. -/
theorem c10_raw_integer_gate_witness :
    Logger.Error (newTestLogger Sink.stdout "") (SetGlobalMinLevel initialLogState (-1)) "m"
        = SetGlobalMinLevel initialLogState (-1) ∧
    (Logger.Fine (newTestLogger Sink.stdout "") (SetGlobalMinLevel initialLogState 7) "m").output
        ≠ (SetGlobalMinLevel initialLogState 7).output :=
  ⟨((c10_raw_integer_gate (-1) initialLogState (newTestLogger Sink.stdout "") "m").2.1
      (by decide)).1,
   ((c10_raw_integer_gate 7 initialLogState (newTestLogger Sink.stdout "") "m").2.2
      (by decide)).2.2.2.2⟩

end Slog
